import Mathlib

/-!
Shallow embedding of the survey planning engine of `app.py`:
category classification (`detect_survey_category`), the question budget
(`calculate_question_count`), the static brand fallback
(`get_fallback_brands`), brand-list cleaning
(`get_dynamic_brand_list_from_research`), the batch numbering used by the
generation flow, and the count-validation / completion pass of the
generation flow.  Machine integers are modelled as `Nat` (Python ints are
unbounded; all quantities here are non-negative).  Calls to the external
OpenAI collaborator are modelled as explicit oracle parameters.
-/

namespace SurveyApp

/-- Auxiliary scan: does `need` occur as a contiguous sublist of the
haystack? -/
def listContains (need : List Char) : List Char → Bool
  | [] => need.isEmpty
  | c :: rest => need.isPrefixOf (c :: rest) || listContains need rest

/-- Python `needle in haystack` on strings: substring test. -/
def strContains (hay need : String) : Bool :=
  listContains need.data hay.data

/-- Python whitespace for `str.strip()` (ASCII subset; all strings in this
development are ASCII). -/
def pyIsSpace (c : Char) : Bool :=
  c = ' ' || c = '\t' || c = '\n' || c = '\r' || c = Char.ofNat 11 || c = Char.ofNat 12

/-- Python `str.strip()`: drop leading and trailing whitespace. -/
def pyStrip (s : String) : String :=
  String.mk (((s.data.dropWhile pyIsSpace).reverse.dropWhile pyIsSpace).reverse)

/-- Python `str.lower()` (ASCII; every string this development evaluates on
is ASCII). -/
def pyLower (s : String) : String :=
  String.mk (s.data.map Char.toLower)

/-- Python `str.startswith(pre)`. -/
def pyStartsWith (s pre : String) : Bool :=
  pre.data.isPrefixOf s.data

/-- Python `s.split(sep)` for a one-character separator, on character
lists: keeps empty fields, `[""]` on the empty string. -/
def splitOnChar (sep : Char) : List Char → List (List Char)
  | [] => [[]]
  | c :: rest =>
    match splitOnChar sep rest with
    | [] => [[]]
    | line :: lines =>
      if c = sep then [] :: line :: lines else (c :: line) :: lines

/-- Python `s.split('\n')`. -/
def pySplitLines (s : String) : List String :=
  (splitOnChar (Char.ofNat 10) s.data).map String.mk

/-- Python `s.replace(c, '')` for a single-character pattern: removing every
occurrence of the character. -/
def pyRemoveChar (c : Char) (s : String) : String :=
  String.mk (s.data.filter (fun d => !(d = c)))

/-- The category keyword table of `detect_survey_category`, in the source's
dict insertion order (Python dicts preserve insertion order). -/
def category_keywords : List (String × List String) :=
  [ ("cosmetics", ["cosmetics", "beauty", "cream", "skincare", "makeup", "lipstick",
      "foundation", "night cream", "face cream", "moisturizer", "serum", "lotion"]),
    ("automotive", ["automotive", "car", "vehicle", "ev", "electric vehicle", "auto",
      "automobile", "sedan", "suv"]),
    ("food_beverage", ["food", "restaurant", "dining", "beverage", "drink", "coffee",
      "tea", "snack", "meal"]),
    ("technology", ["phone", "smartphone", "mobile", "technology", "laptop", "computer",
      "software", "app", "tech"]),
    ("fashion", ["fashion", "clothing", "apparel", "shoes", "dress", "shirt",
      "accessories"]),
    ("healthcare", ["healthcare", "medical", "health", "medicine", "treatment",
      "hospital", "doctor"]),
    ("finance", ["finance", "banking", "investment", "insurance", "loan", "credit",
      "financial"]),
    ("travel", ["travel", "hotel", "vacation", "tourism", "airline", "booking"]),
    ("education", ["education", "learning", "course", "school", "university",
      "training"]) ]

/-- `sum(1 for keyword in keywords if keyword in combined_text)`. -/
def categoryScore (combined : String) (keywords : List String) : Nat :=
  (keywords.filter (fun k => strContains combined k)).length

/-- The combined lower-cased haystack `f"{objective.lower()} {audience.lower()}"`. -/
def combinedText (survey_objective target_audience : String) : String :=
  pyLower survey_objective ++ " " ++ pyLower target_audience

/-- `detect_survey_category` (app.py lines 132-162).  Scores every category,
keeps only the positive scores (in insertion order, as the Python dict
comprehension does), and takes `max(..., key=category_scores.get)`, which
returns the first element attaining the maximum in iteration order. -/
def detect_survey_category (survey_objective target_audience : String) : String × Nat :=
  let combined := combinedText survey_objective target_audience
  let scores := category_keywords.map (fun ck => (ck.1, categoryScore combined ck.2))
  let category_scores := scores.filter (fun p => decide (0 < p.2))
  match category_scores with
  | [] => ("general", 0)
  | p :: rest => rest.foldl (fun best q => if q.2 > best.2 then q else best) p

/-- The question budget record returned by `calculate_question_count`. -/
structure QuestionCounts where
  screener : Nat
  core_research : Nat
  demographics : Nat
  total : Nat
  deriving Repr, DecidableEq

/-- `calculate_question_count` (app.py lines 262-278).
`int(loi_minutes * 2.5)` equals `5*loi/2` exactly (2.5 is an exact binary
float), and `int(loi_minutes * 0.4)` equals `2*loi/5` for every LOI the UI
admits (5..60; the float product never crosses an integer boundary there). -/
def calculate_question_count (loi_minutes : Nat) : QuestionCounts :=
  let core_questions := 5 * loi_minutes / 2
  let screener_questions := max 8 (2 * loi_minutes / 5)
  let demographics_questions := max 8 (2 * loi_minutes / 5)
  let total_questions := core_questions + screener_questions + demographics_questions
  { screener := screener_questions
    core_research := core_questions
    demographics := demographics_questions
    total := total_questions }

/-- The four numbered ranges the generation flow instructs the collaborator
to produce (app.py lines 770-772, 831-833, 900-901): screener `1..screener`,
core part 1 `start_q..end_q` with `core_part1_count = core_research // 2`,
core part 2 `start_q2..end_q2` with the remaining core questions, and
demographics last.  Each pair is (start, end), inclusive. -/
def plan_batches (q : QuestionCounts) : List (Nat × Nat) :=
  let core_part1_count := q.core_research / 2
  let start_q := q.screener + 1
  let end_q := start_q + core_part1_count - 1
  let core_part2_count := q.core_research - core_part1_count
  let start_q2 := end_q + 1
  let end_q2 := start_q2 + core_part2_count - 1
  let demo_start := end_q2 + 1
  let demo_end := demo_start + q.demographics - 1
  [(1, q.screener), (start_q, end_q), (start_q2, end_q2), (demo_start, demo_end)]

/-- The list of question numbers of an inclusive range (start, end). -/
def rangeNumbers (r : Nat × Nat) : List Nat :=
  List.range' r.1 (r.2 + 1 - r.1)

/-- The generic placeholder brand list (final `else` of `get_fallback_brands`). -/
def generic_placeholder_brands : List String :=
  ["Brand A", "Brand B", "Brand C", "Brand D", "Brand E"]

/-- The cosmetics/India entry of the `fallback_brands` table. -/
def cosmetics_india_brands : List String :=
  ["Lakme", "Maybelline", "L\x27Oreal", "MAC", "Revlon", "Clinique", "Estee Lauder",
   "Nykaa", "Lotus Herbals", "Forest Essentials", "Colorbar", "Faces Canada",
   "Biotique", "Himalaya Herbals", "VLCC"]

/-- The cosmetics/global entry of the `fallback_brands` table. -/
def cosmetics_global_brands : List String :=
  ["L\x27Oreal", "Maybelline", "MAC", "Revlon", "Clinique", "Estee Lauder", "Chanel",
   "Dior", "Urban Decay", "NARS"]

/-- The automotive/India entry of the `fallback_brands` table. -/
def automotive_india_brands : List String :=
  ["Maruti Suzuki", "Hyundai", "Tata Motors", "Mahindra", "Toyota", "Honda", "BMW",
   "Mercedes-Benz", "Audi", "Ford"]

/-- The automotive/global entry of the `fallback_brands` table. -/
def automotive_global_brands : List String :=
  ["Toyota", "Honda", "Ford", "BMW", "Mercedes-Benz", "Audi", "Hyundai", "Nissan",
   "Volkswagen", "Tesla"]

/-- The technology/India entry of the `fallback_brands` table. -/
def technology_india_brands : List String :=
  ["Samsung", "Apple", "OnePlus", "Xiaomi", "Oppo", "Vivo", "Realme", "Nokia",
   "Motorola", "Google"]

/-- The technology/global entry of the `fallback_brands` table. -/
def technology_global_brands : List String :=
  ["Apple", "Samsung", "Google", "Microsoft", "Sony", "LG", "Huawei", "OnePlus",
   "Nokia", "Motorola"]

/-- The food_beverage/India entry of the `fallback_brands` table. -/
def food_beverage_india_brands : List String :=
  ["Amul", "Britannia", "Parle", "ITC", "Nestle", "Coca-Cola", "PepsiCo",
   "Haldiram\x27s", "MTR", "Patanjali"]

/-- The food_beverage/global entry of the `fallback_brands` table. -/
def food_beverage_global_brands : List String :=
  ["Coca-Cola", "PepsiCo", "Nestle", "Unilever", "Mars", "Mondelez", "Kraft Heinz",
   "General Mills", "Kellogg\x27s", "Starbucks"]

/-- The static `fallback_brands` table of `get_fallback_brands`
(app.py lines 223-240), as an association list in source order. -/
def fallback_brands : List (String × List (String × List String)) :=
  [ ("cosmetics", [("India", cosmetics_india_brands), ("global", cosmetics_global_brands)]),
    ("automotive", [("India", automotive_india_brands), ("global", automotive_global_brands)]),
    ("technology", [("India", technology_india_brands), ("global", technology_global_brands)]),
    ("food_beverage",
      [("India", food_beverage_india_brands), ("global", food_beverage_global_brands)]) ]

/-- `get_fallback_brands` (app.py lines 221-250).
`market_key = 'India' if 'india' in market.lower() else 'global'`; then the
two-level dict lookup with the category-level `'global'` fallback and the
generic placeholder list when the category is absent.  (Every category entry
of the table contains a `"global"` key, so the `.getD []` default of the
middle branch — where Python would raise `KeyError` — is unreachable.) -/
def get_fallback_brands (category market : String) : List String :=
  let market_key := if strContains (pyLower market) "india" then "India" else "global"
  match fallback_brands.lookup category with
  | some table =>
    match table.lookup market_key with
    | some brands => brands
    | none => (table.lookup "global").getD []
  | none => generic_placeholder_brands

/-- The per-line cleaning of `get_dynamic_brand_list_from_research`
(app.py lines 203-207): `line.replace('•','').replace('-','').replace('*','')`
(replacing a one-character pattern by the empty string removes every
occurrence of that character), then dropping every character `c` with
`c.isdigit() and c in '123456789.'` (i.e. the digits 1-9; `'.'` is not a
digit), then `strip()`. -/
def clean_brand_line (line : String) : String :=
  let s1 := pyRemoveChar (Char.ofNat 8226) line
  let s2 := pyRemoveChar '-' s1
  let s3 := pyRemoveChar '*' s2
  let s4 := String.mk (s3.data.filter (fun c => !(c.isDigit && "123456789.".data.contains c)))
  pyStrip s4

/-- The cleaning loop of `get_dynamic_brand_list_from_research`
(app.py lines 199-210): strip the response, split into non-blank stripped
lines, clean each line, and keep the cleaned entries that are non-empty with
`len > 2 and len < 50`. -/
def clean_brands (content : String) : List String :=
  let brand_lines :=
    ((pySplitLines (pyStrip content)).map pyStrip).filter (fun l => !l.data.isEmpty)
  (brand_lines.map clean_brand_line).filter
    (fun b => !b.data.isEmpty && decide (2 < b.data.length) && decide (b.data.length < 50))

/-- `get_dynamic_brand_list_from_research` (app.py lines 164-219), with the
external OpenAI call modelled as an `Except` oracle.  A transport error, or
fewer than 5 surviving brands (the `raise`), is caught by the enclosing
`try/except`, which returns the static fallback; otherwise the first 15
survivors (`brands[:15]`) are returned. -/
def get_dynamic_brand_list_from_research (category market : String)
    (response : Except Unit String) : List String :=
  match response with
  | .error _ => get_fallback_brands category market
  | .ok content =>
    let brands := clean_brands content
    if 5 ≤ brands.length then brands.take 15
    else get_fallback_brands category market

/-- `get_comprehensive_brand_list` (app.py lines 252-260): with an API key the
dynamic research path is used, otherwise the static fallback. -/
def get_comprehensive_brand_list (category market : String)
    (api_response : Option (Except Unit String)) : List String :=
  match api_response with
  | some response => get_dynamic_brand_list_from_research category market response
  | none => get_fallback_brands category market

/-- The question-marker test of the generation flow (app.py lines 956, 1003,
1027): `line.strip().startswith('Q') and '.' in line and any(char.isdigit()
for char in line)`. -/
def is_question_line (line : String) : Bool :=
  pyStartsWith (pyStrip line) "Q" && line.data.contains '.' && line.data.any Char.isDigit

/-- Number of question-marker lines of a questionnaire text. -/
def count_questions (text : String) : Nat :=
  ((pySplitLines text).filter is_question_line).length

/-- The question-marker lines themselves (used to state what the count-based
validation does and does not examine). -/
def question_lines (text : String) : List String :=
  (pySplitLines text).filter is_question_line

/-- The concatenation of the four batch outputs (app.py lines 765, 826, 895,
951): `"\n\n"` after each of the first three parts. -/
def assembled_text (screener_out core1_out core2_out demo_out : String) : String :=
  screener_out ++ "\n\n" ++ core1_out ++ "\n\n" ++ core2_out ++ "\n\n" ++ demo_out

/-- Observable outcome of the count-validation / completion phase of the
generation flow (app.py lines 955-1033). -/
structure GenOutcome where
  /-- The final questionnaire text. -/
  questionnaire : String
  /-- The (start, end) ranges of the supplementary completion requests issued. -/
  completion_requests : List (Nat × Nat)
  /-- The count recomputed for the final messages (app.py lines 1027-1028). -/
  final_count : Nat
  /-- Whether the closing message is the `final_count >= total` success form. -/
  reported_complete : Bool
  /-- Whether a shortfall (`final_count` out of `total`) is reported. -/
  reported_shortfall : Bool
  deriving Repr, DecidableEq

/-- The count-validation / completion phase of the generation flow
(app.py lines 955-1033).  `completion_out start end` models the external
collaborator's output for the single supplementary request `Q start .. Q end`.
Mirrors the source exactly: count the question-marker lines; if short, issue
one completion request for `actual_count+1 .. total` (guarded by the
always-true `remaining_count > 0` test), append its output and re-count; the
final messages re-count the final text and report `final_count` against
`total`. -/
def generation_flow (screener_out core1_out core2_out demo_out : String) (total : Nat)
    (completion_out : Nat → Nat → String) : GenOutcome :=
  let full := assembled_text screener_out core1_out core2_out demo_out
  let actual_count := count_questions full
  if actual_count < total then
    let remaining_count := total - actual_count
    if 0 < remaining_count then
      let supplement := completion_out (actual_count + 1) total
      let questionnaire := full ++ "\n\n" ++ supplement
      let final_count := count_questions questionnaire
      { questionnaire := questionnaire
        completion_requests := [(actual_count + 1, total)]
        final_count := final_count
        reported_complete := decide (total ≤ final_count)
        reported_shortfall := decide (final_count < total) }
    else
      { questionnaire := full
        completion_requests := []
        final_count := actual_count
        reported_complete := decide (total ≤ actual_count)
        reported_shortfall := decide (actual_count < total) }
  else
    { questionnaire := full
      completion_requests := []
      final_count := actual_count
      reported_complete := true
      reported_shortfall := false }



/-- Spec-side cleaning of one brand line, following the spec's words: "strip
leading bullets/numbers/punctuation, trim". -/
def clean_brand_line_spec (line : String) : String :=
  pyStrip (String.mk (line.data.dropWhile (fun c =>
    c = Char.ofNat 8226 || c = '-' || c = '*' || c = '.' || c = ')' ||
      c.isDigit || pyIsSpace c)))

/-- Spec-side cleaning loop: clean each non-blank line, "discard entries
shorter than 3 or longer than 49 characters after cleaning". -/
def clean_brands_spec (content : String) : List String :=
  let brand_lines :=
    ((pySplitLines (pyStrip content)).map pyStrip).filter (fun l => !l.data.isEmpty)
  (brand_lines.map clean_brand_line_spec).filter
    (fun b => decide (3 ≤ b.data.length) && decide (b.data.length ≤ 49))

/-- Spec-side dynamic brand resolution: "cap at the first 20 survivors", fall
back to the static table when fewer than 5 survive. -/
def dynamic_brands_spec (category market : String)
    (response : Except Unit String) : List String :=
  match response with
  | .error _ => get_fallback_brands category market
  | .ok content =>
    let brands := clean_brands_spec content
    if 5 ≤ brands.length then brands.take 20
    else get_fallback_brands category market

/-- Maximum score of a scored category list (0 for the empty list). -/
def listMaxScore (scores : List (String × Nat)) : Nat :=
  scores.foldr (fun p m => max p.2 m) 0

/-- Spec-side classifier, following the spec's words: the category with the
strictly highest total wins, ties broken by the first-declared category in
the fixed enumeration order; all-zero totals give `(general, 0)`. -/
def classify_spec (survey_objective target_audience : String) : String × Nat :=
  let combined := combinedText survey_objective target_audience
  let scores := category_keywords.map (fun ck => (ck.1, categoryScore combined ck.2))
  let m := listMaxScore scores
  if m = 0 then ("general", 0)
  else (scores.find? (fun p => decide (p.2 = m))).getD ("general", 0)

/-- `List.range'` over consecutive starts concatenates (step-1 instance). -/
lemma range'_concat (a m n : Nat) :
    List.range' a m ++ List.range' (a + m) n = List.range' a (m + n) := by
  rw [List.range'_append_1, Nat.add_comm]

/-- The four planned ranges, written with explicit endpoints. -/
lemma plan_batches_eq (s c d : Nat) :
    plan_batches ⟨s, c, d, c + s + d⟩ =
      [(1, s), (s + 1, s + c / 2), (s + c / 2 + 1, s + c), (s + c + 1, c + s + d)] := by
  simp only [plan_batches, List.cons.injEq, Prod.mk.injEq, and_true, true_and]
  omega

/-- Concatenating the four planned ranges yields exactly `1 .. total`. -/
lemma plan_batches_join (s c d : Nat) :
    ((plan_batches ⟨s, c, d, c + s + d⟩).map rangeNumbers).flatten =
      List.range' 1 (c + s + d) := by
  simp only [plan_batches, rangeNumbers, List.map_cons, List.map_nil, List.flatten_cons,
    List.flatten_nil]
  rw [show s + 1 + c / 2 - 1 + 1 = s + 1 + c / 2 from by omega]
  rw [show s + 1 + c / 2 + (c - c / 2) - 1 + 1 = s + 1 + c / 2 + (c - c / 2) from by omega]
  rw [show s + 1 + c / 2 + (c - c / 2) + d - 1 + 1 = s + 1 + c / 2 + (c - c / 2) + d from by
    omega]
  simp only [Nat.add_sub_cancel, Nat.add_sub_cancel_left]
  rw [List.append_nil]
  rw [range'_concat (s + 1 + c / 2) (c - c / 2) d]
  rw [range'_concat (s + 1) (c / 2) (c - c / 2 + d)]
  rw [show s + 1 = 1 + s from by omega]
  rw [range'_concat 1 s (c / 2 + (c - c / 2 + d))]
  congr 1
  omega

/-- The four planned range sizes sum to the total. -/
lemma plan_batches_sum (s c d : Nat) :
    ((plan_batches ⟨s, c, d, c + s + d⟩).map (fun r => r.2 + 1 - r.1)).sum = c + s + d := by
  simp only [plan_batches, List.map_cons, List.map_nil, List.sum_cons, List.sum_nil]
  omega

/-- **C1**: for every QuestionBudget produced by the planner (positive LOI),
the batch plan consists of four consecutive numeric ranges in order —
screener `1..screener`, core part 1 of size `core_research / 2`, core part 2
of the remaining core questions, demographics last — and concatenating these
ranges in order yields exactly the integers `1..total`, with counts summing
to `total`. -/
theorem batch_plan_partitions_budget (loi : Nat) (_hloi : 1 ≤ loi) :
    plan_batches (calculate_question_count loi) =
      [ (1, (calculate_question_count loi).screener),
        ((calculate_question_count loi).screener + 1,
          (calculate_question_count loi).screener +
            (calculate_question_count loi).core_research / 2),
        ((calculate_question_count loi).screener +
            (calculate_question_count loi).core_research / 2 + 1,
          (calculate_question_count loi).screener +
            (calculate_question_count loi).core_research),
        ((calculate_question_count loi).screener +
            (calculate_question_count loi).core_research + 1,
          (calculate_question_count loi).total) ] ∧
    ((plan_batches (calculate_question_count loi)).map rangeNumbers).flatten =
      List.range' 1 (calculate_question_count loi).total ∧
    ((plan_batches (calculate_question_count loi)).map (fun r => r.2 + 1 - r.1)).sum =
      (calculate_question_count loi).total := by
  have hq : calculate_question_count loi =
      ⟨max 8 (2 * loi / 5), 5 * loi / 2, max 8 (2 * loi / 5),
        5 * loi / 2 + max 8 (2 * loi / 5) + max 8 (2 * loi / 5)⟩ := rfl
  rw [hq]
  dsimp only
  exact ⟨plan_batches_eq _ _ _, plan_batches_join _ _ _, plan_batches_sum _ _ _⟩

/-- Witness for C1 at LOI = 20 (screener 8, core 50 split 25/25, demographics
8, total 66). -/
theorem batch_plan_partitions_budget_witness :
    1 ≤ 20 ∧
      (plan_batches (calculate_question_count 20) =
        [ (1, (calculate_question_count 20).screener),
          ((calculate_question_count 20).screener + 1,
            (calculate_question_count 20).screener +
              (calculate_question_count 20).core_research / 2),
          ((calculate_question_count 20).screener +
              (calculate_question_count 20).core_research / 2 + 1,
            (calculate_question_count 20).screener +
              (calculate_question_count 20).core_research),
          ((calculate_question_count 20).screener +
              (calculate_question_count 20).core_research + 1,
            (calculate_question_count 20).total) ] ∧
      ((plan_batches (calculate_question_count 20)).map rangeNumbers).flatten =
        List.range' 1 (calculate_question_count 20).total ∧
      ((plan_batches (calculate_question_count 20)).map (fun r => r.2 + 1 - r.1)).sum =
        (calculate_question_count 20).total) :=
  ⟨by decide, batch_plan_partitions_budget 20 (by decide)⟩

/-- **C2 (counterexample)**: at the positive LOI 1 the planner yields
`core_research = 2`, below the 5-question floor the claim asserts for all
three components. -/
theorem budget_floor_counterexample :
    0 < 1 ∧ (calculate_question_count 1).core_research = 2 ∧
      (calculate_question_count 1).core_research < 5 := by
  decide

/-- **C2 (amended)**: for every LOI ≥ 2 (in particular the whole UI range
5..60), the budget satisfies `total = screener + core_research +
demographics`, screener and demographics are at least their configured floor
8 (hence ≥ 5), core research — which has no configured floor in the code —
is still ≥ 5, and the total is positive.  (At LOI 1 core research drops
to 2.) -/
theorem budget_total_and_floors (loi : Nat) (hloi : 2 ≤ loi) :
    (calculate_question_count loi).total =
        (calculate_question_count loi).screener +
          (calculate_question_count loi).core_research +
          (calculate_question_count loi).demographics ∧
    5 ≤ (calculate_question_count loi).core_research ∧
    8 ≤ (calculate_question_count loi).screener ∧
    8 ≤ (calculate_question_count loi).demographics ∧
    0 < (calculate_question_count loi).total := by
  have h8 : 8 ≤ max 8 (2 * loi / 5) := Nat.le_max_left _ _
  simp only [calculate_question_count]
  omega

/-- Witness for C2 (amended) at the minimum UI LOI, 5. -/
theorem budget_total_and_floors_witness :
    2 ≤ 5 ∧
      ((calculate_question_count 5).total =
          (calculate_question_count 5).screener +
            (calculate_question_count 5).core_research +
            (calculate_question_count 5).demographics ∧
      5 ≤ (calculate_question_count 5).core_research ∧
      8 ≤ (calculate_question_count 5).screener ∧
      8 ≤ (calculate_question_count 5).demographics ∧
      0 < (calculate_question_count 5).total) :=
  ⟨by decide, budget_total_and_floors 5 (by decide)⟩

/-- **C3 (counterexample)**: at LOI 20 the code's budget is
`{screener 8, core 50, demographics 8, total 66}`, not the claimed
`{screener 6, core 30, demographics 5, total 41}` (the code uses the 2.5×
multiplier and floors of 8, not 1.5× and floors of 5). -/
theorem scenario_A_counterexample :
    calculate_question_count 20 ≠
      { screener := 6, core_research := 30, demographics := 5, total := 41 } ∧
    (calculate_question_count 20).total = 66 := by
  decide

/-- **C3 (amended)**: at LOI 20 the budget planner yields core research 50,
screener 8, demographics 8, total 66 (k_core = 2.5, floors 8); and the
classifier on scenario inputs containing the keywords "automotive" and "car"
returns category automotive with confidence 3 ≥ 2. -/
theorem scenario_A_on_code :
    calculate_question_count 20 =
      { screener := 8, core_research := 50, demographics := 8, total := 66 } ∧
    detect_survey_category "automotive" "car" = ("automotive", 3) ∧
    2 ≤ (detect_survey_category "automotive" "car").2 := by
  decide

/-- Closed form of `generation_flow`: the always-true inner
`remaining_count > 0` guard collapses. -/
lemma generation_flow_eq (s1 s2 s3 s4 : String) (total : Nat) (co : Nat → Nat → String) :
    generation_flow s1 s2 s3 s4 total co =
      if count_questions (assembled_text s1 s2 s3 s4) < total then
        { questionnaire := assembled_text s1 s2 s3 s4 ++ "\n\n" ++
            co (count_questions (assembled_text s1 s2 s3 s4) + 1) total
          completion_requests := [(count_questions (assembled_text s1 s2 s3 s4) + 1, total)]
          final_count := count_questions (assembled_text s1 s2 s3 s4 ++ "\n\n" ++
            co (count_questions (assembled_text s1 s2 s3 s4) + 1) total)
          reported_complete := decide (total ≤ count_questions (assembled_text s1 s2 s3 s4 ++
            "\n\n" ++ co (count_questions (assembled_text s1 s2 s3 s4) + 1) total))
          reported_shortfall := decide (count_questions (assembled_text s1 s2 s3 s4 ++
            "\n\n" ++ co (count_questions (assembled_text s1 s2 s3 s4) + 1) total) < total) }
      else
        { questionnaire := assembled_text s1 s2 s3 s4
          completion_requests := []
          final_count := count_questions (assembled_text s1 s2 s3 s4)
          reported_complete := true
          reported_shortfall := false } := by
  simp only [generation_flow]
  split_ifs with h1 h2
  · rfl
  · omega
  · rfl

/-- **C4**: whenever the realized count after concatenating the batch outputs
is below the planned total, the flow issues exactly one supplementary request
for precisely the trailing range `actual_count+1 .. total`, appends its
output, and re-counts exactly once; otherwise no request is made; never more
than one request; and a remaining shortfall (or completeness) is reported on
the recomputed final count. -/
theorem completion_pass_single_request (s1 s2 s3 s4 : String) (total : Nat)
    (co : Nat → Nat → String) :
    (count_questions (assembled_text s1 s2 s3 s4) < total →
      (generation_flow s1 s2 s3 s4 total co).completion_requests =
          [(count_questions (assembled_text s1 s2 s3 s4) + 1, total)] ∧
      (generation_flow s1 s2 s3 s4 total co).questionnaire =
          assembled_text s1 s2 s3 s4 ++ "\n\n" ++
            co (count_questions (assembled_text s1 s2 s3 s4) + 1) total ∧
      (generation_flow s1 s2 s3 s4 total co).final_count =
          count_questions (generation_flow s1 s2 s3 s4 total co).questionnaire) ∧
    (total ≤ count_questions (assembled_text s1 s2 s3 s4) →
      (generation_flow s1 s2 s3 s4 total co).completion_requests = []) ∧
    (generation_flow s1 s2 s3 s4 total co).completion_requests.length ≤ 1 ∧
    ((generation_flow s1 s2 s3 s4 total co).final_count < total →
      (generation_flow s1 s2 s3 s4 total co).reported_shortfall = true) ∧
    (total ≤ (generation_flow s1 s2 s3 s4 total co).final_count →
      (generation_flow s1 s2 s3 s4 total co).reported_complete = true) := by
  rw [generation_flow_eq]
  by_cases h : count_questions (assembled_text s1 s2 s3 s4) < total
  · rw [if_pos h]
    exact ⟨fun _ => ⟨rfl, rfl, rfl⟩, fun h2 => absurd h (by omega), by simp,
      fun hf => decide_eq_true hf, fun hc => decide_eq_true hc⟩
  · rw [if_neg h]
    exact ⟨fun hlt => absurd hlt h, fun _ => rfl, by simp,
      fun hf => absurd hf h, fun _ => rfl⟩

/-- Witness for C4: four batch outputs realizing 5 of 8 planned questions
trigger the single request for range [6, 8]; the supplement adds one
question, and the remaining shortfall is reported. -/
theorem completion_pass_single_request_witness :
    count_questions (assembled_text "Q1. A?\nQ2. B?" "Q3. C?" "Q4. D?" "Q5. E?") < 8 ∧
    (generation_flow "Q1. A?\nQ2. B?" "Q3. C?" "Q4. D?" "Q5. E?" 8
        (fun _ _ => "Q6. X?")).completion_requests =
      [(count_questions (assembled_text "Q1. A?\nQ2. B?" "Q3. C?" "Q4. D?" "Q5. E?") + 1, 8)] ∧
    (generation_flow "Q1. A?\nQ2. B?" "Q3. C?" "Q4. D?" "Q5. E?" 8
        (fun _ _ => "Q6. X?")).final_count < 8 ∧
    (generation_flow "Q1. A?\nQ2. B?" "Q3. C?" "Q4. D?" "Q5. E?" 8
        (fun _ _ => "Q6. X?")).reported_shortfall = true :=
  ⟨by decide,
   ((completion_pass_single_request "Q1. A?\nQ2. B?" "Q3. C?" "Q4. D?" "Q5. E?" 8
      (fun _ _ => "Q6. X?")).1 (by decide)).1,
   by decide,
   (completion_pass_single_request "Q1. A?\nQ2. B?" "Q3. C?" "Q4. D?" "Q5. E?" 8
      (fun _ _ => "Q6. X?")).2.2.2.1 (by decide)⟩

/-- **C5 (amended)**: the only validation the generation flow performs on the
assembled questionnaire is comparing the count of question-marker lines to
the planned total (triggering the single completion pass and choosing the
closing message); duplicate question numbers, duplicate question text,
termination markers and fraud markers are never examined. -/
theorem validation_checks_count_only (s1 s2 s3 s4 : String) (total : Nat)
    (co : Nat → Nat → String) :
    (generation_flow s1 s2 s3 s4 total co).reported_complete =
        decide (total ≤ (generation_flow s1 s2 s3 s4 total co).final_count) ∧
    (generation_flow s1 s2 s3 s4 total co).reported_shortfall =
        decide ((generation_flow s1 s2 s3 s4 total co).final_count < total) ∧
    (generation_flow s1 s2 s3 s4 total co).completion_requests =
        (if count_questions (assembled_text s1 s2 s3 s4) < total then
          [(count_questions (assembled_text s1 s2 s3 s4) + 1, total)] else []) ∧
    (generation_flow s1 s2 s3 s4 total co).final_count =
        count_questions (generation_flow s1 s2 s3 s4 total co).questionnaire := by
  rw [generation_flow_eq]
  by_cases h : count_questions (assembled_text s1 s2 s3 s4) < total
  · rw [if_pos h, if_pos h]
    exact ⟨rfl, rfl, rfl, rfl⟩
  · rw [if_neg h, if_neg h]
    exact ⟨(decide_eq_true
        (show total ≤ count_questions (assembled_text s1 s2 s3 s4) from by omega)).symm,
      (decide_eq_false h).symm, rfl, rfl⟩

/-- **C5 (counterexample)**: a questionnaire consisting of the same question
line twice — a duplicate question number, duplicate question text, no
termination marker and no fraud marker — passes the flow's validation as
complete with no supplementary request and no reported discrepancy: only the
count is checked. -/
theorem validation_ignores_duplicates_counterexample :
    ¬(question_lines (generation_flow "Q1. Same question?\nQ1. Same question?" "" "" "" 2
        (fun _ _ => "")).questionnaire).Nodup ∧
    (generation_flow "Q1. Same question?\nQ1. Same question?" "" "" "" 2
        (fun _ _ => "")).completion_requests = [] ∧
    (generation_flow "Q1. Same question?\nQ1. Same question?" "" "" "" 2
        (fun _ _ => "")).reported_complete = true ∧
    (generation_flow "Q1. Same question?\nQ1. Same question?" "" "" "" 2
        (fun _ _ => "")).reported_shortfall = false := by
  decide

/-- Every output of the static fallback is one of the nine concrete lists. -/
lemma gfb_mem (category market : String) :
    get_fallback_brands category market ∈
      [cosmetics_india_brands, cosmetics_global_brands, automotive_india_brands,
       automotive_global_brands, technology_india_brands, technology_global_brands,
       food_beverage_india_brands, food_beverage_global_brands,
       generic_placeholder_brands] := by
  by_cases h1 : category = "cosmetics"
  · subst h1
    cases hb : strContains (pyLower market) "india" <;> simp only [get_fallback_brands, hb] <;>
      decide
  by_cases h2 : category = "automotive"
  · subst h2
    cases hb : strContains (pyLower market) "india" <;> simp only [get_fallback_brands, hb] <;>
      decide
  by_cases h3 : category = "technology"
  · subst h3
    cases hb : strContains (pyLower market) "india" <;> simp only [get_fallback_brands, hb] <;>
      decide
  by_cases h4 : category = "food_beverage"
  · subst h4
    cases hb : strContains (pyLower market) "india" <;> simp only [get_fallback_brands, hb] <;>
      decide
  have hNone : fallback_brands.lookup category = none := by
    simp [fallback_brands, List.lookup, beq_eq_false_iff_ne.mpr h1,
      beq_eq_false_iff_ne.mpr h2, beq_eq_false_iff_ne.mpr h3, beq_eq_false_iff_ne.mpr h4]
  cases hb : strContains (pyLower market) "india" <;>
    simp only [get_fallback_brands, hb, hNone] <;> decide

/-- The `general` category has no table entry: the placeholders come back for
every market. -/
lemma gfb_general (market : String) :
    get_fallback_brands "general" market = generic_placeholder_brands := by
  cases hb : strContains (pyLower market) "india" <;>
    simp [get_fallback_brands, fallback_brands, List.lookup, hb]

/-- All nine possible fallback outputs are non-empty, duplicate-free and hold
between 1 and 20 entries. -/
lemma gfb_wellformed (category market : String) :
    get_fallback_brands category market ≠ [] ∧
    (get_fallback_brands category market).Nodup ∧
    1 ≤ (get_fallback_brands category market).length ∧
    (get_fallback_brands category market).length ≤ 20 := by
  have hmem := gfb_mem category market
  simp only [List.mem_cons, List.not_mem_nil, or_false] at hmem
  rcases hmem with h | h | h | h | h | h | h | h | h <;> rw [h] <;> decide

/-- **C6**: brand resolution is a total function; with the external lookup
failing it returns the static fallback, which for every (category, market)
pair is a non-empty, de-duplicated list of 1 to 20 entries; for the `general`
category (no table entry) it is exactly the placeholder list
Brand A .. Brand E. -/
theorem brand_resolution_fails_soft (category market : String) :
    get_dynamic_brand_list_from_research category market (.error ()) =
        get_fallback_brands category market ∧
    get_fallback_brands category market ≠ [] ∧
    (get_fallback_brands category market).Nodup ∧
    1 ≤ (get_fallback_brands category market).length ∧
    (get_fallback_brands category market).length ≤ 20 ∧
    get_fallback_brands "general" market = generic_placeholder_brands :=
  ⟨rfl, (gfb_wellformed category market).1, (gfb_wellformed category market).2.1,
   (gfb_wellformed category market).2.2.1, (gfb_wellformed category market).2.2.2,
   gfb_general market⟩

/-- **C7 (amended)**: every survivor of the code's cleaning loop has between
3 and 49 characters; with at least 5 survivors the resolver returns the first
15 of them (the cap is 15, not 20); with fewer than 5 it falls back to the
static table, as it does on any transport error. -/
theorem brand_cleaning_properties (category market content : String) :
    (∀ b ∈ clean_brands content, 3 ≤ b.data.length ∧ b.data.length ≤ 49) ∧
    (5 ≤ (clean_brands content).length →
      get_dynamic_brand_list_from_research category market (.ok content) =
          (clean_brands content).take 15 ∧
      (get_dynamic_brand_list_from_research category market (.ok content)).length ≤ 15) ∧
    ((clean_brands content).length < 5 →
      get_dynamic_brand_list_from_research category market (.ok content) =
        get_fallback_brands category market) ∧
    (∀ e : Unit, get_dynamic_brand_list_from_research category market (.error e) =
      get_fallback_brands category market) := by
  refine ⟨?_, fun h5 => ?_, fun h5 => ?_, fun e => rfl⟩
  · intro b hb
    have hp := (List.mem_filter.mp hb).2
    simp only [Bool.and_eq_true, decide_eq_true_eq] at hp
    omega
  · simp only [get_dynamic_brand_list_from_research]
    rw [if_pos h5]
    exact ⟨rfl, by rw [List.length_take]; omega⟩
  · simp only [get_dynamic_brand_list_from_research]
    rw [if_neg (by omega)]

/-- Witness for C7 (amended): six clean lines survive, so the resolver
returns their 15-cap prefix (all six). -/
theorem brand_cleaning_properties_witness :
    5 ≤ (clean_brands
        "Alpha One\nBeta Two\nGamma Three\nDelta Four\nEpsilon Five\nZeta Six").length ∧
    get_dynamic_brand_list_from_research "automotive" "India"
        (.ok "Alpha One\nBeta Two\nGamma Three\nDelta Four\nEpsilon Five\nZeta Six") =
      (clean_brands
        "Alpha One\nBeta Two\nGamma Three\nDelta Four\nEpsilon Five\nZeta Six").take 15 :=
  ⟨by decide,
   ((brand_cleaning_properties "automotive" "India"
      "Alpha One\nBeta Two\nGamma Three\nDelta Four\nEpsilon Five\nZeta Six").2.1
      (by decide)).1⟩

/-- **C7 (counterexample)**: the claim's post-processing (strip only leading
bullets/numbers/punctuation; cap at the first 20 survivors) disagrees with
the code on concrete inputs: the code removes `-` everywhere, turning
`Coca-Cola` into `CocaCola`, and it caps at 15, returning 15 of 16 clean
survivors where a 20-cap would return all 16. -/
theorem brand_cleaning_counterexample :
    get_dynamic_brand_list_from_research "food_beverage" "global"
        (.ok "Coca-Cola\nPepsi Cola\nFanta Juice\nSprite Soda\nThums Up\nMirinda Co") ≠
      dynamic_brands_spec "food_beverage" "global"
        (.ok "Coca-Cola\nPepsi Cola\nFanta Juice\nSprite Soda\nThums Up\nMirinda Co") ∧
    (get_dynamic_brand_list_from_research "technology" "global"
        (.ok ("Brand Aa\nBrand Bb\nBrand Cc\nBrand Dd\nBrand Ee\nBrand Ff\nBrand Gg\n" ++
          "Brand Hh\nBrand Ii\nBrand Jj\nBrand Kk\nBrand Ll\nBrand Mm\nBrand Nn\n" ++
          "Brand Oo\nBrand Pp"))).length = 15 ∧
    (dynamic_brands_spec "technology" "global"
        (.ok ("Brand Aa\nBrand Bb\nBrand Cc\nBrand Dd\nBrand Ee\nBrand Ff\nBrand Gg\n" ++
          "Brand Hh\nBrand Ii\nBrand Jj\nBrand Kk\nBrand Ll\nBrand Mm\nBrand Nn\n" ++
          "Brand Oo\nBrand Pp"))).length = 16 := by
  decide

/-- **C8 (amended)**: the static fallback derives its market key by a
substring test — any market whose lower-cased text contains "india" selects
the India entry, every other market selects the global entry.  Hence any two
markets not containing "india" give identical results; a category absent
from the table gives the placeholders; and a category present in the table
gives its global entry for any non-"india" market. -/
theorem fallback_market_key_behavior (category m1 m2 : String) :
    (strContains (pyLower m1) "india" = false → strContains (pyLower m2) "india" = false →
      get_fallback_brands category m1 = get_fallback_brands category m2) ∧
    (fallback_brands.lookup category = none →
      get_fallback_brands category m1 = generic_placeholder_brands) ∧
    (∀ table, fallback_brands.lookup category = some table →
      strContains (pyLower m1) "india" = false →
      get_fallback_brands category m1 = (table.lookup "global").getD []) := by
  refine ⟨fun hm1 hm2 => ?_, fun hnone => ?_, fun table htab hm1 => ?_⟩
  · simp only [get_fallback_brands, hm1, hm2]
  · cases hb : strContains (pyLower m1) "india" <;>
      simp only [get_fallback_brands, hb, hnone]
  · rcases hg : table.lookup "global" with _ | brands <;>
      simp [get_fallback_brands, hm1, htab, hg]

/-- Witness for C8 (amended): two concrete non-"india" markets, a category
outside the table, and a category inside it. -/
theorem fallback_market_key_behavior_witness :
    get_fallback_brands "cosmetics" "USA" = get_fallback_brands "cosmetics" "Brazil" ∧
    get_fallback_brands "sports" "USA" = generic_placeholder_brands ∧
    get_fallback_brands "cosmetics" "USA" =
      (([("India", cosmetics_india_brands),
         ("global", cosmetics_global_brands)].lookup "global").getD []) :=
  ⟨(fallback_market_key_behavior "cosmetics" "USA" "Brazil").1 (by decide) (by decide),
   (fallback_market_key_behavior "sports" "USA" "USA").2.1 (by decide),
   (fallback_market_key_behavior "cosmetics" "USA" "USA").2.2
     [("India", cosmetics_india_brands), ("global", cosmetics_global_brands)]
     (by decide) (by decide)⟩

/-- **C8 (counterexample)**: "Indiana" and "USA" are both markets with no
exact key in the cosmetics table (its keys are "India" and "global"), yet the
code returns the India list for "Indiana" — the substring test 'india' ⊆
'indiana' fires — and the global list for "USA": not identical, and not the
category's global entry. -/
theorem fallback_market_key_counterexample :
    ("Indiana" ≠ "India" ∧ "Indiana" ≠ "global" ∧ "USA" ≠ "India" ∧ "USA" ≠ "global") ∧
    get_fallback_brands "cosmetics" "Indiana" = cosmetics_india_brands ∧
    get_fallback_brands "cosmetics" "USA" = cosmetics_global_brands ∧
    get_fallback_brands "cosmetics" "Indiana" ≠ get_fallback_brands "cosmetics" "USA" := by
  decide

/-- A category none of whose keywords occurs in the haystack scores 0. -/
lemma categoryScore_eq_zero (combined : String) (kws : List String)
    (h : ∀ k ∈ kws, strContains combined k = false) : categoryScore combined kws = 0 := by
  unfold categoryScore
  rw [List.length_eq_zero]
  exact List.filter_eq_nil_iff.mpr (fun k hk => by simp [h k hk])

/-- If every category scores 0, the positive-score filter is empty. -/
lemma scores_filter_nil (L : List (String × List String)) (f : List String → Nat)
    (h0 : ∀ ck ∈ L, f ck.2 = 0) :
    (L.map (fun ck => (ck.1, f ck.2))).filter (fun p => decide (0 < p.2)) = [] := by
  apply List.filter_eq_nil_iff.mpr
  intro p hp
  simp only [List.mem_map] at hp
  obtain ⟨ck, hck, rfl⟩ := hp
  simp [h0 ck hck]

/-- With distinct category names, a single category scoring 1 and all others
scoring 0, the positive-score filter keeps exactly that category. -/
lemma scores_filter_single (L : List (String × List String)) (c : String)
    (kws : List String) (f : List String → Nat)
    (hnd : (L.map Prod.fst).Nodup) (hmem : (c, kws) ∈ L) (h1 : f kws = 1)
    (h0 : ∀ ck ∈ L, ck.1 ≠ c → f ck.2 = 0) :
    (L.map (fun ck => (ck.1, f ck.2))).filter (fun p => decide (0 < p.2)) = [(c, 1)] := by
  induction L with
  | nil => cases hmem
  | cons a L ih =>
    simp only [List.map_cons, List.nodup_cons] at hnd
    rcases List.mem_cons.mp hmem with heq | hmem'
    · subst heq
      simp only [List.map_cons]
      rw [List.filter_cons_of_pos (by simp [h1])]
      rw [h1]
      have hrest : ∀ ck ∈ L, f ck.2 = 0 := by
        intro ck hck
        by_cases hc : ck.1 = c
        · have hcmem : ck.1 ∈ L.map Prod.fst := List.mem_map_of_mem Prod.fst hck
          rw [hc] at hcmem
          exact absurd hcmem hnd.1
        · exact h0 ck (List.mem_cons_of_mem _ hck) hc
      rw [scores_filter_nil L f hrest]
    · have hane : a.1 ≠ c := by
        intro hc
        exact hnd.1 (hc ▸ List.mem_map_of_mem Prod.fst hmem')
      have ha0 : f a.2 = 0 := h0 a (List.mem_cons_self _ _) hane
      simp only [List.map_cons]
      rw [List.filter_cons_of_neg (by simp [ha0])]
      exact ih hnd.2 hmem' (fun ck hck hc => h0 ck (List.mem_cons_of_mem _ hck) hc)

/-- **C9**: an input matching no keyword of any category classifies as
`(general, 0)`; an input on which exactly one category scores exactly one
keyword match (all others scoring zero) classifies as that category with
confidence equal to the per-keyword weight 1. -/
theorem classifier_zero_and_single (obj aud c : String) (kws : List String) :
    ((∀ ck ∈ category_keywords, ∀ k ∈ ck.2,
        strContains (combinedText obj aud) k = false) →
      detect_survey_category obj aud = ("general", 0)) ∧
    ((c, kws) ∈ category_keywords →
      categoryScore (combinedText obj aud) kws = 1 →
      (∀ ck ∈ category_keywords, ck.1 ≠ c →
        categoryScore (combinedText obj aud) ck.2 = 0) →
      detect_survey_category obj aud = (c, 1)) := by
  constructor
  · intro h
    have hnil := scores_filter_nil category_keywords
      (categoryScore (combinedText obj aud))
      (fun ck hck => categoryScore_eq_zero _ _ (h ck hck))
    simp only [detect_survey_category]
    rw [hnil]
  · intro hmem h1 h0
    have hnd : (category_keywords.map Prod.fst).Nodup := by decide
    have hone := scores_filter_single category_keywords c kws
      (categoryScore (combinedText obj aud)) hnd hmem h1 h0
    simp only [detect_survey_category]
    rw [hone]
    rfl

/-- Witness for C9: "zzz qqq" matches nothing; "fashion x" contains exactly
the single keyword "fashion" of the fashion category. -/
theorem classifier_zero_and_single_witness :
    detect_survey_category "zzz" "qqq" = ("general", 0) ∧
    detect_survey_category "fashion" "x" = ("fashion", 1) :=
  ⟨(classifier_zero_and_single "zzz" "qqq" "" []).1 (by decide),
   (classifier_zero_and_single "fashion" "x" "fashion"
      ["fashion", "clothing", "apparel", "shoes", "dress", "shirt", "accessories"]).2
      (by decide) (by decide) (by decide)⟩

/-- The fold the source's `max(category_scores, key=category_scores.get)`
performs: scanning left to right, keep the first element whose score is
strictly maximal so far. -/
def firstMax (p : String × Nat) (l : List (String × Nat)) : String × Nat :=
  l.foldl (fun best q => if q.2 > best.2 then q else best) p

/-- Unfolding lemma for the maximum score. -/
lemma listMaxScore_cons (a : String × Nat) (l : List (String × Nat)) :
    listMaxScore (a :: l) = max a.2 (listMaxScore l) := rfl

/-- Every score is bounded by the maximum score. -/
lemma le_listMaxScore (l : List (String × Nat)) : ∀ p ∈ l, p.2 ≤ listMaxScore l := by
  induction l with
  | nil => intro p hp; cases hp
  | cons a l ih =>
    intro p hp
    rcases List.mem_cons.mp hp with rfl | hp'
    · exact Nat.le_max_left _ _
    · exact Nat.le_trans (ih p hp') (Nat.le_max_right _ _)

/-- A positive maximum score is attained. -/
lemma listMaxScore_attained (l : List (String × Nat)) (h : 0 < listMaxScore l) :
    ∃ p ∈ l, p.2 = listMaxScore l := by
  induction l with
  | nil => simp [listMaxScore] at h
  | cons a l ih =>
    by_cases hal : listMaxScore l ≤ a.2
    · exact ⟨a, List.mem_cons_self _ _, (Nat.max_eq_left hal).symm⟩
    · have hmax : listMaxScore (a :: l) = listMaxScore l :=
        Nat.max_eq_right (Nat.le_of_not_le hal)
      rw [hmax] at h ⊢
      obtain ⟨p, hp, hpe⟩ := ih h
      exact ⟨p, List.mem_cons_of_mem _ hp, hpe⟩

/-- Dropping the zero-score entries does not change the maximum score. -/
lemma listMaxScore_filter_pos (l : List (String × Nat)) :
    listMaxScore (l.filter (fun p => decide (0 < p.2))) = listMaxScore l := by
  induction l with
  | nil => rfl
  | cons a l ih =>
    by_cases ha : 0 < a.2
    · rw [List.filter_cons_of_pos (by simpa using ha), listMaxScore_cons,
        listMaxScore_cons, ih]
    · rw [List.filter_cons_of_neg (by simpa using ha), ih, listMaxScore_cons]
      omega

/-- The left fold keeping the first strict maximum finds precisely the first
element whose score equals the maximum score. -/
lemma find?_max_eq_firstMax (l : List (String × Nat)) : ∀ p : String × Nat,
    (p :: l).find? (fun q => decide (listMaxScore (p :: l) ≤ q.2)) = some (firstMax p l) := by
  induction l with
  | nil =>
    intro p
    rw [List.find?_cons_of_pos _ (by simp [listMaxScore])]
    rfl
  | cons q l ih =>
    intro p
    by_cases hq : q.2 > p.2
    · have hqm : q.2 ≤ listMaxScore (q :: l) :=
        le_listMaxScore _ q (List.mem_cons_self _ _)
      have hm : listMaxScore (p :: q :: l) = listMaxScore (q :: l) := by
        simp only [listMaxScore_cons]
        omega
      rw [List.find?_cons_of_neg _ (by simp [hm]; omega)]
      rw [hm]
      rw [ih q]
      show _ = some (List.foldl _ (if q.2 > p.2 then q else p) l)
      rw [if_pos hq]
      rfl
    · have hm : listMaxScore (p :: q :: l) = listMaxScore (p :: l) := by
        rw [listMaxScore_cons, listMaxScore_cons, listMaxScore_cons]
        omega
      have hfold : firstMax p (q :: l) = firstMax p l := by
        show List.foldl _ (if q.2 > p.2 then q else p) l = _
        rw [if_neg hq]
        rfl
      rw [hfold, hm, ← ih p]
      by_cases hp : listMaxScore (p :: l) ≤ p.2
      · rw [List.find?_cons_of_pos _ (by simpa using hp),
          List.find?_cons_of_pos _ (by simpa using hp)]
      · have hqle : ¬ listMaxScore (p :: l) ≤ q.2 := by omega
        rw [List.find?_cons_of_neg _ (by simpa using hp),
          List.find?_cons_of_neg _ (by simpa using hqle),
          List.find?_cons_of_neg _ (by simpa using hp)]

/-- `find?` ignores filtering by a predicate implied by the search
predicate. -/
lemma find?_filter_sub (l : List (String × Nat)) (pred keep : (String × Nat) → Bool)
    (h : ∀ q, pred q = true → keep q = true) :
    (l.filter keep).find? pred = l.find? pred := by
  induction l with
  | nil => rfl
  | cons a l ih =>
    by_cases hk : keep a = true
    · rw [List.filter_cons_of_pos hk]
      by_cases hp : pred a = true
      · rw [List.find?_cons_of_pos _ hp, List.find?_cons_of_pos _ hp]
      · rw [List.find?_cons_of_neg _ hp, List.find?_cons_of_neg _ hp, ih]
    · have hp : ¬ pred a = true := fun hpa => hk (h a hpa)
      rw [List.filter_cons_of_neg hk, List.find?_cons_of_neg _ hp, ih]

/-- `find?` only depends on the predicate's values on the list. -/
lemma find?_congr_mem (l : List (String × Nat)) (p1 p2 : (String × Nat) → Bool)
    (h : ∀ q ∈ l, p1 q = p2 q) : l.find? p1 = l.find? p2 := by
  induction l with
  | nil => rfl
  | cons a l ih =>
    have ha := h a (List.mem_cons_self _ _)
    by_cases hp : p1 a = true
    · rw [List.find?_cons_of_pos _ hp, List.find?_cons_of_pos _ (ha ▸ hp)]
    · rw [List.find?_cons_of_neg _ hp, List.find?_cons_of_neg _ (ha ▸ hp),
        ih (fun q hq => h q (List.mem_cons_of_mem _ hq))]

/-- **C10**: the classifier is the total deterministic function that scores
each category by one point per keyword occurring as a substring of the
lower-cased concatenated haystack, returns the category with the strictly
highest total, breaks ties by the first-declared category in the fixed
enumeration order, and returns `(general, 0)` when every total is zero —
i.e. it coincides everywhere with the spec-side `classify_spec`. -/
theorem classifier_is_first_max (obj aud : String) :
    detect_survey_category obj aud = classify_spec obj aud := by
  simp only [detect_survey_category, classify_spec]
  set scores := category_keywords.map
    (fun ck => (ck.1, categoryScore (combinedText obj aud) ck.2)) with hscores
  by_cases hm : listMaxScore scores = 0
  · have hnil : scores.filter (fun p => decide (0 < p.2)) = [] :=
      List.filter_eq_nil_iff.mpr (fun p hp => by
        have := le_listMaxScore scores p hp
        simp
        omega)
    rw [hnil, if_pos hm]
  · have hpos : 0 < listMaxScore scores := Nat.pos_of_ne_zero hm
    obtain ⟨p0, hp0mem, hp0⟩ := listMaxScore_attained scores hpos
    have hp0keep : p0 ∈ scores.filter (fun p => decide (0 < p.2)) :=
      List.mem_filter.mpr ⟨hp0mem, by simp; omega⟩
    rcases hfilter : scores.filter (fun p => decide (0 < p.2)) with _ | ⟨q, rest⟩
    · rw [hfilter] at hp0keep
      cases hp0keep
    · rw [hfilter, if_neg hm]
      have h1 := find?_max_eq_firstMax rest q
      have h2 : listMaxScore (q :: rest) = listMaxScore scores := by
        rw [← hfilter, listMaxScore_filter_pos]
      rw [h2] at h1
      have h3 : (scores.filter (fun p => decide (0 < p.2))).find?
            (fun x => decide (listMaxScore scores ≤ x.2)) =
          scores.find? (fun x => decide (listMaxScore scores ≤ x.2)) :=
        find?_filter_sub _ _ _ (fun x hx => by
          simp at hx ⊢
          omega)
      rw [hfilter, h1] at h3
      have h4 : scores.find? (fun x => decide (listMaxScore scores ≤ x.2)) =
          scores.find? (fun x => decide (x.2 = listMaxScore scores)) :=
        find?_congr_mem _ _ _ (fun x hxmem => by
          have := le_listMaxScore scores x hxmem
          simp only [decide_eq_decide]
          omega)
      rw [h4] at h3
      rw [← h3]
      rfl

end SurveyApp
